import Mathlib

/-!
Shallow embedding of the Evaluation Session Controller of
`src/src/App.tsx` (ai-script-grader-frontend).

The component's React state hooks become the fields of `AppState`; each
event handler becomes a pure transition function.  Network operations
(`fetch`, `EventSource`) are modelled by passing their externally
determined outcomes as explicit inputs:

  * `UploadFetch` — the outcome of the `fetch` in `handleUpload`
    (a network-level error, or an HTTP status plus the result of
    `response.json()`, which can itself fail on an invalid-JSON body);
  * `DownloadFetch` — the outcome of the `fetch` in `handleDownload`;
  * SSE events are delivered by `sseDeliver`, which fires the
    `onmessage` handler only when the subscription derived from the
    state (the `useEffect` on `[evaluationId, isEvaluating]`,
    lines 30–64) is open for that job id.

JavaScript truthiness is made explicit where the source relies on it:
a `string | null` is truthy exactly when it is a non-empty string.
-/

namespace AIScriptGrader

/-- A locally selected file: the handle's name and its declared media
type (`file.type` in the source). -/
structure SelFile where
  name : String
  type : String
deriving DecidableEq, Repr

/-- The two file slots, the `"answer" | "question"` tag of
`handleFileChange`. -/
inductive Slot
  | answer
  | question
deriving DecidableEq, Repr

/-- The component state: one field per `useState` hook of `App`
(lines 14–21 of `App.tsx`). -/
structure AppState where
  answerScript : Option SelFile
  questionPaper : Option SelFile
  evaluationId : Option String
  isLoading : Bool
  error : Option String
  uploadStatus : String
  logs : List String
  isEvaluating : Bool
deriving DecidableEq, Repr

/-- The initial hook values. -/
def initialState : AppState :=
  { answerScript := none
    questionPaper := none
    evaluationId := none
    isLoading := false
    error := none
    uploadStatus := ""
    logs := []
    isEvaluating := false }

/-! ### String constants of the source -/

def API_BASE_URL : String := "https://ai-script-grader-backend.onrender.com"

def invalidFileMsg : String := "Please upload a valid PDF file"

def missingFilesMsg : String := "Please upload both answer script and question paper"

def uploadingMsg : String := "Uploading files..."

def evaluationInProgressMsg : String := "Evaluation in progress..."

def evaluationCompletedMsg : String := "Evaluation completed"

def serverUnavailableMsg : String :=
  "Server is currently unavailable. Please try again in a few moments."

def connectionLostMsg : String :=
  "Connection to server lost. Please refresh the page and try again."

/-- `Upload failed (Status: ${response.status})` (line 120). -/
def uploadFailedMsg (st : Nat) : String := s!"Upload failed (Status: {st})"

/-- `Failed to download PDF (Status: ${response.status})` (line 159). -/
def downloadFailedMsg (st : Nat) : String := s!"Failed to download PDF (Status: {st})"

/-! ### JavaScript truthiness -/

/-- Truthiness of a `string | null` value: truthy iff a non-empty
string. -/
def strTruthy : Option String → Bool
  | some s => s != ""
  | none => false

/-- `data.message || fallback` (line 120): the message field when it is
a present, non-empty string; otherwise the fallback. -/
def messageOr (m : Option String) (fallback : String) : String :=
  match m with
  | some s => if s = "" then fallback else s
  | none => fallback

/-! ### The SSE subscription (`useEffect`, lines 30–64) -/

/-- The job id for which an `EventSource` is open, derived from the
effect's guard `if (evaluationId && isEvaluating)` (line 33); `none`
when no subscription is open (the effect's cleanup closed it). -/
def openSub (s : AppState) : Option String :=
  if strTruthy s.evaluationId && s.isEvaluating then s.evaluationId else none

/-- The character set removed by JavaScript's `String.prototype.trim`:
ECMAScript WhiteSpace (TAB, VT, FF, SP, NBSP, ZWNBSP and the Unicode
space separators) and LineTerminator (LF, CR, LS, PS). -/
def jsWhitespace (c : Char) : Bool :=
  c == ' ' || c == '\t' || c == '\n' || c == '\r' ||
  c == '\x0B' || c == '\x0C' || c == ' ' || c == '﻿' ||
  c == ' ' || (0x2000 ≤ c.toNat && c.toNat ≤ 0x200A) ||
  c == ' ' || c == ' ' || c == ' ' || c == ' ' ||
  c == '　'

/-- JavaScript `s.trim()`: drop leading and trailing whitespace. -/
def jsTrim (s : String) : String :=
  ⟨((s.data.dropWhile jsWhitespace).reverse.dropWhile jsWhitespace).reverse⟩

/-- `eventSource.onmessage` (lines 39–43): append the payload as one
log line iff its trimmed form is non-empty (`if (event.data.trim())`). -/
def onMessage (s : AppState) (data : String) : AppState :=
  if jsTrim data ≠ "" then { s with logs := s.logs ++ [data] } else s

/-- A sequence of inbound `onmessage` events, in arrival order. -/
def processEvents (s : AppState) (events : List String) : AppState :=
  events.foldl onMessage s

/-- `EventSource.readyState` at the time an error event fires. -/
inductive ReadyState
  | connecting
  | opened
  | closed
deriving DecidableEq, Repr

/-- `eventSource.onerror` (lines 45–58): the handler first calls
`eventSource?.close()` (line 47), leaves `Evaluating`, sets the
completion status text, and then tests
`(error.target as EventSource).readyState === EventSource.CLOSED`
(line 52).  `EventSource.close()` synchronously sets `readyState` to
`CLOSED`, and `error.target` is that same `EventSource`, so whatever
the readiness `_rsAtFire` was when the error event fired, the read at
line 52 sees `CLOSED` and the connection-lost error is set on every
transport error.  (The handler's argument is always an `Event` in the
browser, so the `instanceof` conjunct always holds.) -/
def onError (s : AppState) (_rsAtFire : ReadyState) : AppState :=
  let rsAtCheck := ReadyState.closed
  let s1 := { s with isEvaluating := false, uploadStatus := evaluationCompletedMsg }
  if rsAtCheck = ReadyState.closed then { s1 with error := some connectionLostMsg } else s1

/-- Delivery of one SSE event: the browser invokes `onmessage` only on
a connection that is open, and only the subscription's own job's events
arrive on it. -/
def sseDeliver (s : AppState) (job : String) (data : String) : AppState :=
  if openSub s = some job then onMessage s data else s

/-! ### `handleFileChange` (lines 66–81) -/

/-- `handleFileChange`: `e.target.files?.[0]` may be absent; a present
file is stored in its slot (and the error cleared) iff its declared
media type is exactly `application/pdf`, else the error is set and the
slots are untouched. -/
def handleFileChange (s : AppState) (file : Option SelFile) (slot : Slot) : AppState :=
  match file with
  | some f =>
    if f.type = "application/pdf" then
      match slot with
      | Slot.answer => { s with answerScript := some f, error := none }
      | Slot.question => { s with questionPaper := some f, error := none }
    else
      { s with error := some invalidFileMsg }
  | none => { s with error := some invalidFileMsg }

/-! ### `handleUpload` (lines 83–135) -/

/-- The parsed JSON body of the upload response (`UploadResponse` in
the source); each field may be absent in what the server actually
returned. -/
structure UploadData where
  status : Option String
  message : Option String
  evaluation_id : Option String
deriving DecidableEq, Repr

/-- Outcome of the upload `fetch` plus `response.json()`:
`networkError` is a rejection of `fetch` itself (a thrown `Error`,
whose message is surfaced by the `catch`); `response` carries the HTTP
status and the result of `response.json()` — `Except.error` is a JSON
parse failure and carries the thrown `SyntaxError`'s message. -/
inductive UploadFetch
  | networkError (msg : String)
  | response (status : Nat) (body : Except String UploadData)

/-- `response.ok`: status in the inclusive range 200–299. -/
def respOk (st : Nat) : Bool := 200 ≤ st && st ≤ 299

/-- The guard `if (!answerScript || !questionPaper)` (line 84), negated:
both slots hold a file (a `File` object is always truthy). -/
def bothFilesPresent (s : AppState) : Bool :=
  s.answerScript.isSome && s.questionPaper.isSome

/-- The synchronous reset at the start of `handleUpload`
(lines 89–93): loading on, error cleared, status text set, Log Stream
cleared, evaluating off (which closes any prior subscription via the
effect cleanup). -/
def resetForUpload (s : AppState) : AppState :=
  { s with isLoading := true
           error := none
           uploadStatus := uploadingMsg
           logs := []
           isEvaluating := false }

/-- The part of `handleUpload` before the `fetch` is issued: the guard
(lines 84–87) and the reset (lines 89–93).  The boolean records whether
the request is actually sent. -/
def uploadBegin (s : AppState) : AppState × Bool :=
  if bothFilesPresent s then (resetForUpload s, true)
  else ({ s with error := some missingFilesMsg }, false)

/-- Processing of the upload response (lines 110–134): a 502 throws the
server-unavailable message before the body is read; then
`response.json()` runs (its failure throws, surfacing the parse
message) before the `!response.ok` check; every thrown `Error`'s
message lands in `error` with the status text cleared; on a 2xx body
the job id is stored, the in-progress text set and evaluating turned
on.  The `finally` clears `isLoading` on every path. -/
def uploadComplete (s : AppState) (r : UploadFetch) : AppState :=
  let s' :=
    match r with
    | UploadFetch.networkError msg =>
        { s with error := some msg, uploadStatus := "" }
    | UploadFetch.response st body =>
        if st = 502 then
          { s with error := some serverUnavailableMsg, uploadStatus := "" }
        else
          match body with
          | Except.error parseMsg =>
              { s with error := some parseMsg, uploadStatus := "" }
          | Except.ok data =>
              if respOk st then
                { s with evaluationId := data.evaluation_id
                         uploadStatus := evaluationInProgressMsg
                         isEvaluating := true }
              else
                { s with error := some (messageOr data.message (uploadFailedMsg st))
                         uploadStatus := "" }
  { s' with isLoading := false }

/-- The whole of `handleUpload`, given the fetch outcome `r` (only
consulted when the request is actually sent); the boolean records
whether a network request was issued. -/
def handleUpload (s : AppState) (r : UploadFetch) : AppState × Bool :=
  let b := uploadBegin s
  if b.2 then (uploadComplete b.1 r, true) else (b.1, false)

/-! ### `handleDownload` (lines 137–174) -/

/-- Outcome of the download `fetch`: a thrown `Error`'s message, or an
HTTP status together with the (opaque) binary body. -/
inductive DownloadFetch
  | networkError (msg : String)
  | response (status : Nat) (blob : String)

/-- `evaluated_script_${evaluationId}.pdf` (line 166). -/
def downloadFilename (j : String) : String := s!"evaluated_script_{j}.pdf"

/-- `${API_BASE_URL}/get-evaluated-pdf/${evaluationId}` (line 142). -/
def downloadUrl (j : String) : String := s!"{API_BASE_URL}/get-evaluated-pdf/{j}"

/-- Result of `handleDownload`: the new state, the URL of the request
that was issued (if any), and the filename under which the blob was
saved (if the download succeeded). -/
structure DownloadOutcome where
  state : AppState
  requestUrl : Option String
  savedFilename : Option String
deriving DecidableEq, Repr

/-- `handleDownload`: no-op unless `evaluationId` is truthy
(`if (!evaluationId) return`, line 138); a 502 throws the
server-unavailable message; other non-2xx throws the templated
download-failure message; on success the blob is saved under the
deterministic filename and the state is untouched. -/
def handleDownload (s : AppState) (r : DownloadFetch) : DownloadOutcome :=
  match s.evaluationId with
  | none => ⟨s, none, none⟩
  | some j =>
    if j = "" then ⟨s, none, none⟩
    else
      match r with
      | DownloadFetch.networkError msg =>
          ⟨{ s with error := some msg }, some (downloadUrl j), none⟩
      | DownloadFetch.response st _ =>
          if st = 502 then
            ⟨{ s with error := some serverUnavailableMsg }, some (downloadUrl j), none⟩
          else if respOk st then
            ⟨s, some (downloadUrl j), some (downloadFilename j)⟩
          else
            ⟨{ s with error := some (downloadFailedMsg st) }, some (downloadUrl j), none⟩

/-- An upload fetch outcome that lands in the `catch` block: a network
error, a 502, a JSON-parse failure, or a non-2xx status. -/
def uploadFails : UploadFetch → Bool
  | UploadFetch.networkError _ => true
  | UploadFetch.response st body =>
      (st == 502) ||
        (match body with
         | Except.error _ => true
         | Except.ok _ => !(respOk st))

/-! ### Concrete fixtures used by witnesses and counterexamples -/

/-- A valid answer-script selection. -/
def aPdf : SelFile := { name := "a.pdf", type := "application/pdf" }

/-- A valid question-paper selection. -/
def qPdf : SelFile := { name := "q.pdf", type := "application/pdf" }

/-- A non-PDF selection. -/
def aTxt : SelFile := { name := "a.txt", type := "text/plain" }

/-- A state with both slots populated, ready to upload. -/
def readyState : AppState :=
  { initialState with answerScript := some aPdf, questionPaper := some qPdf }

/-- A state mid-evaluation of job `"abc123"`, with one collected log
line. -/
def evalState : AppState :=
  { readyState with
      evaluationId := some "abc123"
      isEvaluating := true
      uploadStatus := evaluationInProgressMsg
      logs := ["line1"] }

/-! ### Theorems -/

/-- Every `onmessage` event appends its payload exactly when the
trimmed payload is non-empty. -/
theorem processEvents_logs (events : List String) (s : AppState) :
    (processEvents s events).logs
      = s.logs ++ events.filter (fun d => jsTrim d != "") := by
  induction events generalizing s with
  | nil => simp [processEvents]
  | cons d es ih =>
    show (processEvents (onMessage s d) es).logs = _
    rw [ih]
    by_cases h : jsTrim d = "" <;> simp [onMessage, List.filter_cons, h]

/-- C3: over any event sequence, exactly the non-blank payloads are
appended to the Log Stream, one line per event, in arrival order; in
particular `["", "  ", "line1", "\n", "line2"]` yields exactly
`["line1", "line2"]`. -/
theorem c3_log_stream_filter :
    (∀ (s : AppState) (events : List String),
        (processEvents s events).logs
          = s.logs ++ events.filter (fun d => jsTrim d != "")) ∧
    (processEvents initialState ["", "  ", "line1", "\n", "line2"]).logs
      = ["line1", "line2"] :=
  ⟨fun s events => processEvents_logs events s, by decide⟩

/-- C7: a non-PDF selection leaves both slots untouched and sets the
validation error; a PDF selection stores the file in its slot, leaves
the other slot untouched and clears any prior error. -/
theorem c7_file_validation (s : AppState) (f : SelFile) (slot : Slot) :
    (f.type ≠ "application/pdf" →
      (handleFileChange s (some f) slot).answerScript = s.answerScript ∧
      (handleFileChange s (some f) slot).questionPaper = s.questionPaper ∧
      (handleFileChange s (some f) slot).error = some invalidFileMsg) ∧
    (f.type = "application/pdf" →
      (handleFileChange s (some f) slot).error = none ∧
      (slot = Slot.answer →
        (handleFileChange s (some f) slot).answerScript = some f ∧
        (handleFileChange s (some f) slot).questionPaper = s.questionPaper) ∧
      (slot = Slot.question →
        (handleFileChange s (some f) slot).questionPaper = some f ∧
        (handleFileChange s (some f) slot).answerScript = s.answerScript)) := by
  constructor
  · intro h
    simp [handleFileChange, h]
  · intro h
    cases slot <;> simp [handleFileChange, h]

/-- C7, instantiated: rejecting a text file and accepting a PDF. -/
theorem c7_file_validation_witness :
    (handleFileChange readyState (some aTxt) Slot.answer).answerScript
        = readyState.answerScript ∧
    (handleFileChange readyState (some aTxt) Slot.answer).error
        = some invalidFileMsg ∧
    (handleFileChange initialState (some aPdf) Slot.answer).answerScript
        = some aPdf ∧
    (handleFileChange initialState (some aPdf) Slot.answer).error = none :=
  ⟨((c7_file_validation readyState aTxt Slot.answer).1 (by decide)).1,
   ((c7_file_validation readyState aTxt Slot.answer).1 (by decide)).2.2,
   (((c7_file_validation initialState aPdf Slot.answer).2 rfl).2.1 rfl).1,
   ((c7_file_validation initialState aPdf Slot.answer).2 rfl).1⟩

/-- C2: the code at the failing input.  A transport error that fires
while the connection's readiness is `CONNECTING` (a transient drop, not
a permanent closure) still closes the subscription, leaves `Evaluating`
with the completion status text and keeps the collected log lines — but
it also surfaces the connection-lost error, because `close()` (line 47)
has already forced `readyState` to `CLOSED` by the time line 52 reads
it.  The claim (and the conditional the source itself wrote) say this
message is surfaced only on permanent closure. -/
theorem c2_transient_error_surfaces :
    (onError evalState ReadyState.connecting).isEvaluating = false ∧
    (onError evalState ReadyState.connecting).uploadStatus
      = evaluationCompletedMsg ∧
    openSub (onError evalState ReadyState.connecting) = none ∧
    (onError evalState ReadyState.connecting).logs = evalState.logs ∧
    (onError evalState ReadyState.connecting).error = some connectionLostMsg ∧
    ReadyState.connecting ≠ ReadyState.closed := by
  decide

/-- C9: the download filename is exactly
`evaluated_script_<jobId>.pdf` (deterministic in the job id), it is
`evaluated_script_xyz.pdf` for job id `xyz`, and a successful download
saves the blob under exactly that name. -/
theorem c9_download_filename :
    (∀ j : String, downloadFilename j = "evaluated_script_" ++ j ++ ".pdf") ∧
    downloadFilename "xyz" = "evaluated_script_xyz.pdf" ∧
    (∀ (s : AppState) (j : String) (st : Nat) (blob : String),
        s.evaluationId = some j → j ≠ "" → respOk st = true →
        (handleDownload s (DownloadFetch.response st blob)).savedFilename
          = some (downloadFilename j)) := by
  refine ⟨fun j => rfl, by decide, ?_⟩
  intro s j st blob hid hj hok
  have h502 : st ≠ 502 := by
    intro h
    subst h
    exact absurd hok (by decide)
  simp [handleDownload, hid, hj, h502, hok]

/-- C9, instantiated: a successful download for job `abc123`. -/
theorem c9_download_filename_witness :
    (handleDownload evalState (DownloadFetch.response 200 "blob")).savedFilename
      = some (downloadFilename "abc123") :=
  c9_download_filename.2.2 evalState "abc123" 200 "blob" rfl (by decide) (by decide)

/-- C8: with a missing file slot, `handleUpload` issues no request and
changes nothing except setting the missing-files error; with no job id,
`handleDownload` issues no request and changes nothing. -/
theorem c8_guard_noops :
    (∀ (s : AppState) (r : UploadFetch),
        s.answerScript = none ∨ s.questionPaper = none →
        (handleUpload s r).2 = false ∧
        (handleUpload s r).1 = { s with error := some missingFilesMsg }) ∧
    (∀ (s : AppState) (r : DownloadFetch),
        s.evaluationId = none →
        handleDownload s r = ⟨s, none, none⟩) := by
  constructor
  · intro s r h
    have hb : bothFilesPresent s = false := by
      rcases h with h | h <;> simp [bothFilesPresent, h]
    simp [handleUpload, uploadBegin, hb]
  · intro s r h
    simp [handleDownload, h]

/-- C8, instantiated: upload with empty slots and download without a
job id. -/
theorem c8_guard_noops_witness :
    (handleUpload initialState
        (UploadFetch.response 200 (Except.ok ⟨none, none, some "abc123"⟩))).2
      = false ∧
    handleDownload readyState (DownloadFetch.response 200 "blob")
      = ⟨readyState, none, none⟩ :=
  ⟨(c8_guard_noops.1 initialState
      (UploadFetch.response 200 (Except.ok ⟨none, none, some "abc123"⟩))
      (Or.inl rfl)).1,
   c8_guard_noops.2 readyState (DownloadFetch.response 200 "blob") rfl⟩

/-- C1: counterexample to the claim as stated.  A 2xx upload response
whose JSON body contains `evaluation_id` with the value `""` satisfies
every premise of the claim (both slots populated, 2xx status, body
contains the field): the id is stored, the status text and `Evaluating`
transition happen, the Log Stream is empty — yet no stream subscription
is opened, because the effect guard `evaluationId && isEvaluating`
is falsy on the empty string. -/
theorem c1_counterexample :
    (handleUpload readyState
        (UploadFetch.response 200
          (Except.ok ⟨some "success", some "ok", some ""⟩))).1.evaluationId
      = some "" ∧
    (handleUpload readyState
        (UploadFetch.response 200
          (Except.ok ⟨some "success", some "ok", some ""⟩))).1.isEvaluating
      = true ∧
    openSub (handleUpload readyState
        (UploadFetch.response 200
          (Except.ok ⟨some "success", some "ok", some ""⟩))).1
      = none := by
  decide

/-- C1 (amended: the returned `evaluation_id` must be non-empty): with
both slots populated, a 2xx response whose body carries a non-empty
`evaluation_id` makes `handleUpload` store that id, set the in-progress
status text, enter `Evaluating`, leave the Log Stream empty, and open a
subscription for exactly that job id. -/
theorem c1_upload_success (s : AppState) (data : UploadData) (j : String) (st : Nat)
    (ha : s.answerScript.isSome = true) (hq : s.questionPaper.isSome = true)
    (h200 : 200 ≤ st) (h299 : st ≤ 299)
    (hid : data.evaluation_id = some j) (hj : j ≠ "") :
    (handleUpload s (UploadFetch.response st (Except.ok data))).2 = true ∧
    (handleUpload s (UploadFetch.response st (Except.ok data))).1.evaluationId
        = some j ∧
    (handleUpload s (UploadFetch.response st (Except.ok data))).1.uploadStatus
        = evaluationInProgressMsg ∧
    (handleUpload s (UploadFetch.response st (Except.ok data))).1.isEvaluating
        = true ∧
    (handleUpload s (UploadFetch.response st (Except.ok data))).1.logs = [] ∧
    openSub (handleUpload s (UploadFetch.response st (Except.ok data))).1
        = some j := by
  have hb : bothFilesPresent s = true := by simp [bothFilesPresent, ha, hq]
  have h502 : st ≠ 502 := by omega
  have hok : respOk st = true := by
    simp only [respOk, Bool.and_eq_true, decide_eq_true_eq]
    exact ⟨h200, h299⟩
  simp [handleUpload, uploadBegin, hb, uploadComplete, h502, hok,
        resetForUpload, hid, openSub, strTruthy, hj]

/-- C1, instantiated: a 200 response carrying job id `abc123`. -/
theorem c1_upload_success_witness :
    (handleUpload readyState
        (UploadFetch.response 200
          (Except.ok ⟨some "success", some "ok", some "abc123"⟩))).2 = true ∧
    (handleUpload readyState
        (UploadFetch.response 200
          (Except.ok ⟨some "success", some "ok", some "abc123"⟩))).1.evaluationId
        = some "abc123" ∧
    (handleUpload readyState
        (UploadFetch.response 200
          (Except.ok ⟨some "success", some "ok", some "abc123"⟩))).1.uploadStatus
        = evaluationInProgressMsg ∧
    (handleUpload readyState
        (UploadFetch.response 200
          (Except.ok ⟨some "success", some "ok", some "abc123"⟩))).1.isEvaluating
        = true ∧
    (handleUpload readyState
        (UploadFetch.response 200
          (Except.ok ⟨some "success", some "ok", some "abc123"⟩))).1.logs = [] ∧
    openSub (handleUpload readyState
        (UploadFetch.response 200
          (Except.ok ⟨some "success", some "ok", some "abc123"⟩))).1
        = some "abc123" :=
  c1_upload_success readyState ⟨some "success", some "ok", some "abc123"⟩
    "abc123" 200 (by decide) (by decide) (by decide) (by decide) rfl (by decide)

/-- C4: an upload response and a download response with HTTP status 502
both surface the same designated server-unavailable message, whatever
the response body is. -/
theorem c4_502_message :
    (∀ (s : AppState) (body : Except String UploadData),
        s.answerScript.isSome = true → s.questionPaper.isSome = true →
        (handleUpload s (UploadFetch.response 502 body)).1.error
          = some serverUnavailableMsg) ∧
    (∀ (s : AppState) (j blob : String),
        s.evaluationId = some j → j ≠ "" →
        (handleDownload s (DownloadFetch.response 502 blob)).state.error
          = some serverUnavailableMsg) := by
  constructor
  · intro s body ha hq
    have hb : bothFilesPresent s = true := by simp [bothFilesPresent, ha, hq]
    simp [handleUpload, uploadBegin, hb, uploadComplete, resetForUpload]
  · intro s j blob hid hj
    simp [handleDownload, hid, hj]

/-- C4, instantiated: 502 on upload and on download, with HTML error
bodies. -/
theorem c4_502_message_witness :
    (handleUpload readyState
        (UploadFetch.response 502 (Except.error "Unexpected token <"))).1.error
      = some serverUnavailableMsg ∧
    (handleDownload evalState
        (DownloadFetch.response 502 "<html>Bad Gateway</html>")).state.error
      = some serverUnavailableMsg :=
  ⟨c4_502_message.1 readyState (Except.error "Unexpected token <")
      (by decide) (by decide),
   c4_502_message.2 evalState "abc123" "<html>Bad Gateway</html>" rfl (by decide)⟩

/-- C5: counterexample to the claim as stated.  A 500 response whose
body is not valid JSON has no server message field, so the claim says
the surfaced message is `Upload failed (Status: 500)`; but
`response.json()` runs before the `!response.ok` check, so the code
surfaces the JSON parse error message instead. -/
theorem c5_counterexample :
    (handleUpload readyState
        (UploadFetch.response 500
          (Except.error "Unexpected token < in JSON"))).1.error
      = some "Unexpected token < in JSON" ∧
    (handleUpload readyState
        (UploadFetch.response 500
          (Except.error "Unexpected token < in JSON"))).1.error
      ≠ some (uploadFailedMsg 500) := by
  constructor <;> decide

/-- C5 (amended: restricted to bodies that parse as JSON; unparsable
bodies surface the parse error): for a non-2xx, non-502 upload
response, the surfaced message is the body's `message` field when
present and non-empty, else the templated `Upload failed (Status: N)`;
when the body fails to parse as JSON, the parse error message is
surfaced instead. -/
theorem c5_upload_error_message (s : AppState) (st : Nat)
    (ha : s.answerScript.isSome = true) (hq : s.questionPaper.isSome = true)
    (h502 : st ≠ 502) (hnok : respOk st = false) :
    (∀ (data : UploadData) (m : String),
        data.message = some m → m ≠ "" →
        (handleUpload s (UploadFetch.response st (Except.ok data))).1.error
          = some m) ∧
    (∀ data : UploadData,
        data.message = none ∨ data.message = some "" →
        (handleUpload s (UploadFetch.response st (Except.ok data))).1.error
          = some (uploadFailedMsg st)) ∧
    (∀ pm : String,
        (handleUpload s (UploadFetch.response st (Except.error pm))).1.error
          = some pm) := by
  have hb : bothFilesPresent s = true := by simp [bothFilesPresent, ha, hq]
  refine ⟨?_, ?_, ?_⟩
  · intro data m hm hne
    simp [handleUpload, uploadBegin, hb, uploadComplete, h502, hnok,
          resetForUpload, messageOr, hm, hne]
  · intro data hm
    rcases hm with hm | hm <;>
      simp [handleUpload, uploadBegin, hb, uploadComplete, h502, hnok,
            resetForUpload, messageOr, hm]
  · intro pm
    simp [handleUpload, uploadBegin, hb, uploadComplete, h502,
          resetForUpload]

/-- C5, instantiated at a 404: server message present, message absent,
and unparsable body. -/
theorem c5_upload_error_message_witness :
    (handleUpload readyState
        (UploadFetch.response 404
          (Except.ok ⟨some "error", some "not found", none⟩))).1.error
      = some "not found" ∧
    (handleUpload readyState
        (UploadFetch.response 404
          (Except.ok ⟨some "error", none, none⟩))).1.error
      = some (uploadFailedMsg 404) ∧
    (handleUpload readyState
        (UploadFetch.response 404 (Except.error "parse failure"))).1.error
      = some "parse failure" := by
  have h := c5_upload_error_message readyState 404
    (by decide) (by decide) (by decide) (by decide)
  exact ⟨h.1 ⟨some "error", some "not found", none⟩ "not found" rfl (by decide),
         h.2.1 ⟨some "error", none, none⟩ (Or.inl rfl),
         h.2.2 "parse failure"⟩

/-- An open subscription's job id is the state's (truthy) job id. -/
theorem openSub_evaluationId {s : AppState} {j : String}
    (h : openSub s = some j) : s.evaluationId = some j := by
  unfold openSub at h
  split at h
  · exact h
  · exact absurd h (by simp)

/-- C6: starting a new upload while a prior job's subscription is open
(and both slots are populated, so the request is actually sent): the
synchronous reset closes the prior subscription before any new one
opens, no old-job event delivered in that window appends a log line,
after the response no event of a job other than the now-recorded id
changes the state, and at most one subscription is ever open. -/
theorem c6_single_subscription (s : AppState) (j : String)
    (_hopen : openSub s = some j)
    (ha : s.answerScript.isSome = true) (hq : s.questionPaper.isSome = true) :
    openSub (uploadBegin s).1 = none ∧
    (∀ d, (sseDeliver (uploadBegin s).1 j d).logs = (uploadBegin s).1.logs) ∧
    (∀ (r : UploadFetch) (d : String),
        (handleUpload s r).1.evaluationId ≠ some j →
        sseDeliver (handleUpload s r).1 j d = (handleUpload s r).1) ∧
    (∀ (s₂ : AppState) (j₁ j₂ : String),
        openSub s₂ = some j₁ → openSub s₂ = some j₂ → j₁ = j₂) := by
  have hb : bothFilesPresent s = true := by simp [bothFilesPresent, ha, hq]
  have h1 : openSub (uploadBegin s).1 = none := by
    simp [uploadBegin, hb, resetForUpload, openSub]
  refine ⟨h1, ?_, ?_, ?_⟩
  · intro d
    simp [sseDeliver, h1]
  · intro r d hne
    have hno : ¬ openSub (handleUpload s r).1 = some j := fun hc =>
      hne (openSub_evaluationId hc)
    simp only [sseDeliver]
    rw [if_neg hno]
  · intro s₂ j₁ j₂ h₁ h₂
    rw [h₁] at h₂
    exact Option.some.inj h₂

/-- C6, instantiated: resetting while job `abc123` is streaming closes
its subscription, and a stale `abc123` event then leaves the (cleared)
Log Stream unchanged. -/
theorem c6_single_subscription_witness :
    openSub (uploadBegin evalState).1 = none ∧
    (sseDeliver (uploadBegin evalState).1 "abc123" "old-line").logs
      = (uploadBegin evalState).1.logs :=
  have h := c6_single_subscription evalState "abc123"
    (by decide) (by decide) (by decide)
  ⟨h.1, h.2.1 "old-line"⟩

/-- A failed response leaves the job id and the log lines of the state
it acts on unchanged. -/
theorem uploadComplete_fail_frame (s : AppState) (r : UploadFetch)
    (hfail : uploadFails r = true) :
    (uploadComplete s r).evaluationId = s.evaluationId ∧
    (uploadComplete s r).logs = s.logs := by
  cases r with
  | networkError m => simp [uploadComplete]
  | response st body =>
    by_cases h5 : st = 502
    · simp [uploadComplete, h5]
    · cases body with
      | error pm => simp [uploadComplete, h5]
      | ok data =>
        have hok : respOk st = false := by
          have hb : (st == 502) = false := by simp [h5]
          simp only [uploadFails, hb, Bool.false_or, Bool.not_eq_true'] at hfail
          exact hfail
        simp [uploadComplete, h5, hok]

/-- Whenever the guard passes, `handleDownload` requests exactly the
result endpoint of the current job id. -/
theorem handleDownload_requestUrl (s : AppState) (j : String)
    (dr : DownloadFetch) (hid : s.evaluationId = some j) (hj : j ≠ "") :
    (handleDownload s dr).requestUrl = some (downloadUrl j) := by
  cases dr with
  | networkError m => simp [handleDownload, hid, hj]
  | response st blob =>
    by_cases h5 : st = 502
    · simp [handleDownload, hid, hj, h5]
    · by_cases hok : respOk st = true
      · simp [handleDownload, hid, hj, h5, hok]
      · simp [handleDownload, hid, hj, h5, hok]

/-- C10: a failed upload attempt (network error, 502, JSON-parse
failure, or other non-2xx) leaves the previously recorded job id
unchanged while the Log Stream has already been cleared at the start of
the attempt; a subsequent download therefore still requests the prior
job's result endpoint even though that job's logs are gone. -/
theorem c10_failed_upload_frame (s : AppState) (r : UploadFetch) (j : String)
    (ha : s.answerScript.isSome = true) (hq : s.questionPaper.isSome = true)
    (hid : s.evaluationId = some j) (hfail : uploadFails r = true) :
    (handleUpload s r).1.evaluationId = some j ∧
    (handleUpload s r).1.logs = [] ∧
    (j ≠ "" → ∀ dr : DownloadFetch,
        (handleDownload (handleUpload s r).1 dr).requestUrl
          = some (downloadUrl j)) := by
  have hb : bothFilesPresent s = true := by simp [bothFilesPresent, ha, hq]
  have hu : (handleUpload s r).1 = uploadComplete (resetForUpload s) r := by
    simp [handleUpload, uploadBegin, hb]
  have hframe := uploadComplete_fail_frame (resetForUpload s) r hfail
  have hid' : (handleUpload s r).1.evaluationId = some j := by
    rw [hu, hframe.1]
    simpa [resetForUpload] using hid
  refine ⟨hid', ?_, ?_⟩
  · rw [hu, hframe.2]
    simp [resetForUpload]
  · intro hj dr
    exact handleDownload_requestUrl (handleUpload s r).1 j dr hid' hj

/-- C10, instantiated: a network failure during a re-upload keeps job
id `abc123`, empties the Log Stream, and a later download still targets
`abc123`. -/
theorem c10_failed_upload_frame_witness :
    (handleUpload evalState
        (UploadFetch.networkError "Failed to fetch")).1.evaluationId
      = some "abc123" ∧
    (handleUpload evalState (UploadFetch.networkError "Failed to fetch")).1.logs
      = [] ∧
    (handleDownload
        (handleUpload evalState (UploadFetch.networkError "Failed to fetch")).1
        (DownloadFetch.response 200 "blob")).requestUrl
      = some (downloadUrl "abc123") := by
  have h := c10_failed_upload_frame evalState
    (UploadFetch.networkError "Failed to fetch") "abc123"
    (by decide) (by decide) rfl (by decide)
  exact ⟨h.1, h.2.1, h.2.2 (by decide) (DownloadFetch.response 200 "blob")⟩

end AIScriptGrader
